import Mathlib

/-!
# Verification of the Steam-Version-Updater interactive pipeline

Shallow embedding of the core data transformations of the repository
(`src/lib/index.js` — `SteamClient.getGameDepots`, `SteamClient.getOsType`,
`SteamClient.getDepotManifests`; `src/lib/SteamSearch.js` — `SteamSearch.searchGames`;
the CLI prompt validation and `CLI.generateSteamCommand` from the CLI module),
together with theorems settling the specification claims about them.

Modelling conventions:
* JavaScript values that may be `undefined`/`null` are modelled with `Option`;
  the pervasive `x || dflt` idiom (which also replaces falsy values such as
  `0` and `""`) is modelled by explicit `jsOr*` helpers.
* JavaScript objects used as string-keyed maps are modelled as association
  lists `List (String × _)` in insertion order; property access is `List.lookup`.
* Numbers that the code only ever treats as epoch seconds or sizes are
  modelled as `Int`/`Nat`.
* `Array.prototype.sort` (stable since ES2019) is modelled as a stable
  insertion sort driven by the source's comparator: an element is placed
  before an existing element exactly when the comparator returns a negative
  value on the pair, so ties and incomparable pairs keep input order.
* Fallible network fetches are modelled as an `Except`/`Option` input: the
  function receives either the fetch error or the (possibly absent) raw
  product info, mirroring the `try`/`catch` around `getProductInfo`.
-/

/-- Characters treated as whitespace by JavaScript `String.prototype.trim`
(restricted to the code points relevant here). -/
def jsWhitespaceChar (c : Char) : Bool :=
  c = ' ' || c = '\t' || c = '\n' || c = '\r' || c = '\x0b' || c = '\x0c' || c = '\u00A0'

/-- JavaScript `String.prototype.trim`: strip leading and trailing whitespace. -/
def jsTrim (s : String) : String :=
  String.mk (((s.data.dropWhile jsWhitespaceChar).reverse.dropWhile jsWhitespaceChar).reverse)

/-- Boolean substring test on character lists: some tail of `l` starts with `pat`. -/
def listContainsSub (l pat : List Char) : Bool :=
  l.tails.any (fun t => pat.isPrefixOf t)

/-- JavaScript `String.prototype.includes`: substring containment. -/
def strContains (s pat : String) : Bool :=
  listContainsSub s.data pat.data

/-- JavaScript `String.prototype.toLowerCase`, restricted to ASCII letters
(the only characters the OS-classification heuristic inspects). -/
def jsToLower (s : String) : String :=
  String.mk (s.data.map Char.toLower)

/-- `true` iff JavaScript `parseInt(s)` (radix unspecified) evaluates to `NaN`:
after optional whitespace and sign there is no leading decimal digit, or a
`0x`/`0X` prefix is followed by no hexadecimal digit. -/
def jsParseIntNaN (s : String) : Bool :=
  let l := s.data.dropWhile jsWhitespaceChar
  let l := match l with
    | c :: rest => if c = '+' || c = '-' then rest else c :: rest
    | [] => []
  match l with
  | [] => true
  | c :: rest =>
    if c = '0' then
      match rest with
      | c2 :: rest2 =>
        if c2 = 'x' || c2 = 'X' then
          match rest2 with
          | d :: _ => !(d.isDigit || ('a' ≤ d && d ≤ 'f') || ('A' ≤ d && d ≤ 'F'))
          | [] => true
        else false
      | [] => false
    else !c.isDigit

/-- `someString || dflt`: JavaScript string defaulting, where both `undefined`
and the empty string (falsy) fall back to the default. -/
def jsOrDefaultStr (o : Option String) (dflt : String) : String :=
  match o with
  | some s => if s = "" then dflt else s
  | none => dflt

/-- `someNat || null`: `undefined` and `0` (falsy) both become `null`. -/
def jsOrNullNat (o : Option Nat) : Option Nat :=
  match o with
  | some 0 => none
  | x => x

/-- `someInt || null`: `undefined` and `0` (falsy) both become `null`. -/
def jsOrNullInt (o : Option Int) : Option Int :=
  match o with
  | some v => if v = 0 then none else some v
  | none => none

/-- `someString || null`: `undefined` and `""` (falsy) both become `null`. -/
def jsOrNullStr (o : Option String) : Option String :=
  match o with
  | some s => if s = "" then none else some s
  | none => none

/-- Truthiness of an optional string: present and non-empty. -/
def jsTruthyStr (o : Option String) : Bool :=
  match o with
  | some s => s ≠ ""
  | none => false

/-- Truthiness of an optional number: present and non-zero
(`0` is falsy in JavaScript; negative numbers are truthy). -/
def jsTruthyInt (o : Option Int) : Bool :=
  match o with
  | some v => v ≠ 0
  | none => false

/-- Decimal rendering of a natural number, as JavaScript template-literal
interpolation `${n}` renders a non-negative integer. Fuel-indexed digits
accumulator; `natRepr` supplies enough fuel. -/
def natReprAux : Nat → Nat → List Char → List Char
  | 0, _, acc => acc
  | fuel + 1, n, acc =>
    if n < 10 then Char.ofNat (48 + n % 10) :: acc
    else natReprAux fuel (n / 10) (Char.ofNat (48 + n % 10) :: acc)

/-- Decimal rendering of a natural number (`${n}` in a template literal). -/
def natRepr (n : Nat) : String :=
  String.mk (natReprAux (n + 1) n [])

/-! ## Raw product-info data model (the untyped JSON-ish appinfo blob) -/

/-- `depot.config` sub-object: `oslist` and `language` fields. -/
structure DepotConfig where
  oslist : Option String
  language : Option String
deriving Repr, DecidableEq

/-- One entry of a depot's `manifests` map: `buildid`, `date`, `size`. -/
structure ManifestDetail where
  buildid : Option String
  date : Option Int
  size : Option Int
deriving Repr, DecidableEq

/-- A depot-specific override inside a branch's `depots` map: the `manifest` field. -/
structure BranchDepotOverride where
  manifest : Option String
deriving Repr, DecidableEq

/-- One branch of `appinfo.depots.branches`. `public` is the truthiness of
`branch.public` (the code only ever uses `!!branch.public`). -/
structure Branch where
  buildid : Option String
  depots : Option (List (String × BranchDepotOverride))
  description : Option String
  public : Bool
  timeupdated : Option Int
deriving Repr, DecidableEq

/-- A raw depot entry of the `appinfo.depots` table. Flag fields model the
truthiness of `depot.systemdefined`/`depot.optional`/`depot.sharedinstall`
(the code defaults each with `|| false`). -/
structure DepotRaw where
  name : Option String
  config : Option DepotConfig
  dlcappid : Option Nat
  maxsize : Option Nat
  systemdefined : Bool
  optional : Bool
  sharedinstall : Bool
  encryptedsize : Option Nat
  manifests : Option (List (String × ManifestDetail))
deriving Repr, DecidableEq

/-- A `DepotRaw` with every field absent/false, for building concrete inputs. -/
def emptyDepotRaw : DepotRaw :=
  { name := none, config := none, dlcappid := none, maxsize := none,
    systemdefined := false, optional := false, sharedinstall := false,
    encryptedsize := none, manifests := none }

/-- The `appinfo.depots` object. In JavaScript this is a single object whose
keys are depot ids plus the reserved key `"branches"`; we model the depot-id
entries as an association list (which may still adversarially contain the key
`"branches"` — the extraction loop guards against it either way) and the
branch table as a separate optional field. -/
structure DepotsTable where
  entries : List (String × DepotRaw)
  branches : Option (List (String × Branch))
deriving Repr, DecidableEq

/-- `appinfo.common`: only the `name` field is used. -/
structure CommonInfo where
  name : Option String
deriving Repr, DecidableEq

/-- The `appinfo` object of a product. -/
structure AppInfo where
  common : Option CommonInfo
  depots : Option DepotsTable
deriving Repr, DecidableEq

/-- A product-info record as returned for one app (`apps[appId]`). -/
structure ProductInfo where
  appinfo : Option AppInfo
deriving Repr, DecidableEq

/-- Outcome of the wrapped `getProductInfo` call: the callback error
(rejecting the promise and landing in `catch`), or `apps[appId]`, which may
be `undefined` (`none`). -/
abbrev FetchResult : Type := Except String (Option ProductInfo)

/-! ## `SteamClient.getOsType` -/

/-- The name-based half of `SteamClient.getOsType`: inspect
`depot.name.toLowerCase()` for OS substrings; `Unknown` when the name is
absent, empty, or matches nothing. -/
def nameOsType (depot : DepotRaw) : String :=
  match depot.name with
  | some n =>
    if n = "" then "Unknown"
    else
      let ln := jsToLower n
      if strContains ln "windows" then "Windows"
      else if strContains ln "mac" || strContains ln "osx" then "Mac"
      else if strContains ln "linux" then "Linux"
      else "Unknown"
  | none => "Unknown"

/-- `SteamClient.getOsType`: when `depot.config.oslist` is truthy, classify by
`oslist.includes(...)` (returning the raw `oslist` value when unrecognized);
otherwise fall through to the display-name heuristic. -/
def getOsType (depot : DepotRaw) : String :=
  match depot.config with
  | some cfg =>
    match cfg.oslist with
    | some os =>
      if os = "" then nameOsType depot
      else if strContains os "windows" then "Windows"
      else if strContains os "macos" then "Mac"
      else if strContains os "linux" then "Linux"
      else os
    | none => nameOsType depot
  | none => nameOsType depot

/-! ## `SteamClient.getGameDepots` -/

/-- A normalized Depot record as pushed by `getGameDepots`. The synthetic
fallback depot carries `none`/`false` for the fields the code leaves
undefined (downstream consumers only test their truthiness). The JS code
stores the numeric app id in the fallback's `id`; we store its decimal
rendering, which is how every consumer (template literals) reads it. -/
structure Depot where
  id : String
  name : String
  osType : String
  dlcAppId : Option Nat
  maxSize : Option Nat
  systemDefined : Bool
  optional : Bool
  sharedInstall : Bool
  language : Option String
  encryptedSize : Option Nat
deriving Repr, DecidableEq

/-- The loop guard of `getGameDepots`: `depotId === "branches" || isNaN(parseInt(depotId))`. -/
def skipDepotKey (depotId : String) : Bool :=
  depotId = "branches" || jsParseIntNaN depotId

/-- The record pushed for one qualifying entry of the depot table. -/
def depotOfEntry (depotId : String) (depot : DepotRaw) : Depot :=
  { id := depotId,
    name := jsOrDefaultStr depot.name ("Depot " ++ depotId),
    osType := getOsType depot,
    dlcAppId := jsOrNullNat depot.dlcappid,
    maxSize := jsOrNullNat depot.maxsize,
    systemDefined := depot.systemdefined,
    optional := depot.optional,
    sharedInstall := depot.sharedinstall,
    language := jsOrNullStr (depot.config.bind DepotConfig.language),
    encryptedSize := jsOrNullNat depot.encryptedsize }

/-- The depot-table iteration of `getGameDepots`: one Depot per table entry
whose key survives the guard, in iteration order. -/
def extractDepots (ai : AppInfo) : List Depot :=
  match ai.depots with
  | none => []
  | some dt =>
    (dt.entries.filter (fun kv => !skipDepotKey kv.1)).map
      (fun kv => depotOfEntry kv.1 kv.2)

/-- The synthetic fallback depot (`id: appId`, OS `"Unknown"`). -/
def syntheticDepot (appId : Nat) (name : String) : Depot :=
  { id := natRepr appId, name := name, osType := "Unknown",
    dlcAppId := none, maxSize := none, systemDefined := false,
    optional := false, sharedInstall := false, language := none,
    encryptedSize := none }

/-- Fallback name for the synthetic depot of the no-depots path:
`productInfo.appinfo.common?.name || `App ${appId}``. -/
def fallbackDepotName (appId : Nat) (ai : AppInfo) : String :=
  jsOrDefaultStr (ai.common.bind CommonInfo.name) ("App " ++ natRepr appId)

/-- `SteamClient.getGameDepots`: on fetch error, the catch block returns one
fallback depot named `App <appId>`; when the product info or its `appinfo`
is absent, return `[]`; otherwise extract depots from the table and fall
back to one synthetic depot when none qualified. -/
def getGameDepots (appId : Nat) (fetch : FetchResult) : List Depot :=
  match fetch with
  | .error _ => [syntheticDepot appId ("App " ++ natRepr appId)]
  | .ok none => []
  | .ok (some p) =>
    match p.appinfo with
    | none => []
    | some ai =>
      let depots := extractDepots ai
      if depots.isEmpty then [syntheticDepot appId (fallbackDepotName appId ai)]
      else depots

/-! ## `SteamClient.getDepotManifests` -/

/-- A normalized Manifest record as pushed by `getDepotManifests`.
Branch-derived manifests carry no `size` field (`none`). -/
structure Manifest where
  manifestId : String
  buildId : String
  branch : String
  description : String
  timeupdated : Option Int
  size : Option Int
  isPublic : Bool
  isHistorical : Bool
deriving Repr, DecidableEq

/-- Source A of `getDepotManifests`: one historical Manifest per entry of the
named depot's `manifests` map, in map order. -/
def depotManifestList (dt : DepotsTable) (depotId : String) : List Manifest :=
  match dt.entries.lookup depotId with
  | none => []
  | some depot =>
    match depot.manifests with
    | none => []
    | some ms =>
      ms.map (fun md =>
        { manifestId := md.1,
          buildId := jsOrDefaultStr md.2.buildid "Unknown",
          branch := "Unknown",
          description := "Depot manifest",
          timeupdated := jsOrNullInt md.2.date,
          size := jsOrNullInt md.2.size,
          isPublic := true,
          isHistorical := true })

/-- The manifest id a branch resolves to for a given depot: a truthy
depot-specific override `branch.depots[depotId].manifest` wins, else the
branch's `buildid`. -/
def branchManifestId (branch : Branch) (depotId : String) (buildid : String) : String :=
  match branch.depots with
  | none => buildid
  | some bd =>
    match bd.lookup depotId with
    | none => buildid
    | some ov =>
      match ov.manifest with
      | none => buildid
      | some m => if m = "" then buildid else m

/-- Source B of `getDepotManifests`: one current (non-historical) Manifest per
branch that carries a truthy `buildid`, in branch-table order. -/
def branchManifestList (dt : DepotsTable) (depotId : String) : List Manifest :=
  match dt.branches with
  | none => []
  | some bl =>
    bl.filterMap (fun bb =>
      match bb.2.buildid with
      | none => none
      | some bid =>
        if bid = "" then none
        else some
          { manifestId := branchManifestId bb.2 depotId bid,
            buildId := bid,
            branch := bb.1,
            description := (bb.2.description).getD "",
            timeupdated := jsOrNullInt bb.2.timeupdated,
            size := none,
            isPublic := bb.2.public,
            isHistorical := false })

/-- The five hard-coded sample "previously seen" manifests appended by
`getDepotManifests`, with timestamps relative to `now = Math.floor(Date.now()/1000)`:
2 days, 2 days + 1 hour, 10 days, 15 days, and 16 days ago. -/
def sampleManifests (now : Int) : List Manifest :=
  [{ manifestId := "2946550127499212992", buildId := "Recent",
     branch := "historical", description := "Previously seen manifest",
     timeupdated := some (now - 172800), size := none,
     isPublic := true, isHistorical := true },
   { manifestId := "4931450830400310210", buildId := "Recent",
     branch := "historical", description := "Previously seen manifest",
     timeupdated := some (now - 176400), size := none,
     isPublic := true, isHistorical := true },
   { manifestId := "9512939615798864588", buildId := "Older",
     branch := "historical", description := "Previously seen manifest",
     timeupdated := some (now - 864000), size := none,
     isPublic := true, isHistorical := true },
   { manifestId := "2488226670458163874", buildId := "Older",
     branch := "historical", description := "Previously seen manifest",
     timeupdated := some (now - 1296000), size := none,
     isPublic := true, isHistorical := true },
   { manifestId := "8387145243060614243", buildId := "Older",
     branch := "historical", description := "Previously seen manifest",
     timeupdated := some (now - 1382400), size := none,
     isPublic := true, isHistorical := true }]

/-- The merged (pre-sort) manifest list: depot-map manifests, then branch
manifests, then the five sample historical manifests, in push order. -/
def mergeManifests (dt : DepotsTable) (depotId : String) (now : Int) : List Manifest :=
  depotManifestList dt depotId ++ branchManifestList dt depotId ++ sampleManifests now

/-- The comparator passed to `manifests.sort`: when both `timeupdated` values
are truthy, newest first (`b.timeupdated - a.timeupdated`); otherwise
non-historical before historical, else `0` (keep order). -/
def cmpManifest (a b : Manifest) : Int :=
  if jsTruthyInt a.timeupdated && jsTruthyInt b.timeupdated then
    b.timeupdated.getD 0 - a.timeupdated.getD 0
  else if a.isHistorical && !b.isHistorical then 1
  else if !a.isHistorical && b.isHistorical then -1
  else 0

/-- Stable insertion of `x` into `l`: `x` is placed before the first element
`y` with `cmpManifest x y < 0`, so elements comparing `0` (or incomparable)
keep their input order — modelling ES2019's stable `Array.prototype.sort`. -/
def insertManifest (x : Manifest) : List Manifest → List Manifest
  | [] => [x]
  | y :: ys => if cmpManifest x y < 0 then x :: y :: ys else y :: insertManifest x ys

/-- Stable sort by `cmpManifest` (model of `manifests.sort(comparator)`). -/
def sortManifests (l : List Manifest) : List Manifest :=
  l.foldl (fun acc x => insertManifest x acc) []

/-- `SteamClient.getDepotManifests`: the catch block and the missing
product-info/appinfo/depots guards return `[]`; otherwise the merged
manifest list, sorted. -/
def getDepotManifests (fetch : FetchResult) (depotId : String) (now : Int) : List Manifest :=
  match fetch with
  | .error _ => []
  | .ok none => []
  | .ok (some p) =>
    match p.appinfo with
    | none => []
    | some ai =>
      match ai.depots with
      | none => []
      | some dt => sortManifests (mergeManifests dt depotId now)

/-! ## `SteamSearch.searchGames` and the CLI search-term prompt -/

/-- One outbound HTTP query to the storefront search endpoint, as issued by
`SteamSearch.searchGames` (`axios.get(this.apiUrl, { params: ... })`). -/
structure SearchRequest where
  url : String
  term : String
  locale : String
  cc : String
deriving Repr, DecidableEq

/-- The query `searchGames` issues for a term: the storefront endpoint with
fixed locale `english` and region `US`. `searchGames` itself performs no
validation of the term. -/
def searchGamesRequest (term : String) : SearchRequest :=
  { url := "https://store.steampowered.com/api/storesearch",
    term := term, locale := "english", cc := "US" }

/-- The `validate` callback of the CLI search-term prompt
(`CLI.getSearchTerm`): a blank-after-trim input is rejected with the inline
validation message (the prompt re-issues), any other input is accepted. -/
def searchTermValidate (input : String) : Except String Unit :=
  if jsTrim input = "" then Except.error "Please enter a game name to search"
  else Except.ok ()

/-- Whether the prompt accepts an input: its `validate` callback returns `true`. -/
def searchTermAccepted (input : String) : Bool :=
  match searchTermValidate input with
  | Except.ok _ => true
  | Except.error _ => false

/-- `CLI.getSearchTerm` over the stream of raw user inputs: inquirer keeps
re-prompting until an input passes validation, and returns that input
untrimmed (`none` when the stream is exhausted). -/
def getSearchTerm (inputs : List String) : Option String :=
  inputs.find? searchTermAccepted

/-- The outbound search queries issued by one run of the app's search step:
`searchGames` is called exactly on the term the prompt returned. -/
def appSearchCalls (inputs : List String) : List SearchRequest :=
  match getSearchTerm inputs with
  | some t => [searchGamesRequest t]
  | none => []

/-! ## `CLI.generateSteamCommand` -/

/-- The Steam console command template:
`download_depot ${appId} ${depotId} ${manifestId}`. -/
def steamCommand (appId : Nat) (depotId manifestId : String) : String :=
  "download_depot " ++ natRepr appId ++ " " ++ depotId ++ " " ++ manifestId

/-- `CLI.generateSteamCommand`: when any of the three stored ids is missing
(or falsy), no command is rendered; otherwise the fixed-form command. -/
def generateSteamCommand (appId : Option Nat) (depotId manifestId : Option String) :
    Option String :=
  match appId, depotId, manifestId with
  | some a, some d, some m =>
    if a = 0 || d = "" || m = "" then none
    else some (steamCommand a d m)
  | _, _, _ => none

/-! ## Auxiliary definitions for stating and witnessing the claims -/

/-- Descending-timestamp order on manifests: the right-hand manifest's
timestamp (defaulting to `0`) is at most the left-hand one's. A list that is
`List.Pairwise manByTimeDesc` is sorted newest-first. -/
def manByTimeDesc (a b : Manifest) : Prop :=
  b.timeupdated.getD 0 ≤ a.timeupdated.getD 0

/-- The ten decimal digit characters. -/
def decDigits : List Char :=
  ['0', '1', '2', '3', '4', '5', '6', '7', '8', '9']

/-- Modelled from the spec's words, for comparison with the source's key
guard: a "valid positive integer id" — a non-empty all-decimal-digit string
denoting a positive number (some digit is non-zero). -/
def specValidPositiveIntId (s : String) : Bool :=
  !s.data.isEmpty && s.data.all (fun c => decide (c ∈ decDigits)) &&
    s.data.any (fun c => c != '0')

/-- A manifest record with the given id, timestamp and historical flag, used
for concrete test inputs. -/
def testManifest (mid : String) (t : Option Int) (hist : Bool) : Manifest :=
  { manifestId := mid, buildId := "b1", branch := "beta", description := "",
    timeupdated := t, size := none, isPublic := true, isHistorical := hist }

/-- Depot table for the C3 counterexample: its only depot `"1001"` exposes
no manifest map, and there is no branch data at all. -/
def c3Table : DepotsTable :=
  { entries := [("1001", emptyDepotRaw)], branches := none }

/-- Concrete product for the C3 counterexample. -/
def c3Product : ProductInfo :=
  { appinfo := some { common := none, depots := some c3Table } }

/-- A branch with a truthy `buildid` but no `timeupdated`, yielding an
untimestamped non-historical manifest. -/
def untimedBranch : Branch :=
  { buildid := some "777", depots := none, description := none,
    public := true, timeupdated := none }

/-- Depot table for the C2 counterexample: no depot entries, one branch. -/
def c2Table : DepotsTable :=
  { entries := [], branches := some [("public", untimedBranch)] }

/-- Concrete product for the C2 counterexample: one untimestamped
non-historical branch manifest merged with the five timestamped historical
sample manifests. -/
def c2Product : ProductInfo :=
  { appinfo := some { common := none, depots := some c2Table } }

/-- Concrete app info for the C7 counterexample: the depot table's only key
is `"0"`, which is not a valid positive integer id. -/
def c7App : AppInfo :=
  { common := none, depots := some { entries := [("0", emptyDepotRaw)], branches := none } }

/-- Concrete app info for the C1 witness: a depot table whose keys are the
reserved `"branches"` key and a non-numeric key, so no depot qualifies. -/
def c1Table : DepotsTable :=
  { entries := [("branches", emptyDepotRaw), ("beta", emptyDepotRaw)], branches := none }

/-- App info wrapping `c1Table`, with a display name. -/
def c1App : AppInfo :=
  { common := some { name := some "Stardew Valley" }, depots := some c1Table }

/-! ## Helper lemmas -/

/-- Membership in an insertion is membership in the inserted element or the list. -/
theorem insertManifest_mem (x z : Manifest) (l : List Manifest) :
    z ∈ insertManifest x l ↔ z = x ∨ z ∈ l := by
  induction l with
  | nil => simp [insertManifest]
  | cons y ys ih =>
    by_cases h : cmpManifest x y < 0
    · simp only [insertManifest, if_pos h, List.mem_cons]
    · simp only [insertManifest, if_neg h, List.mem_cons, ih]
      tauto

/-- Insertion grows the length by one. -/
theorem insertManifest_length (x : Manifest) (l : List Manifest) :
    (insertManifest x l).length = l.length + 1 := by
  induction l with
  | nil => rfl
  | cons y ys ih =>
    by_cases h : cmpManifest x y < 0 <;>
      simp [insertManifest, h, ih]

/-- Membership through the sorting fold. -/
theorem foldl_insertManifest_mem (l : List Manifest) :
    ∀ (acc : List Manifest) (z : Manifest),
      (z ∈ l.foldl (fun a x => insertManifest x a) acc ↔ z ∈ l ∨ z ∈ acc) := by
  induction l with
  | nil => intro acc z; simp
  | cons x xs ih =>
    intro acc z
    rw [List.foldl_cons, ih, insertManifest_mem]
    simp only [List.mem_cons]
    tauto

/-- `sortManifests` is membership-preserving. -/
theorem sortManifests_mem (l : List Manifest) (z : Manifest) :
    z ∈ sortManifests l ↔ z ∈ l := by
  unfold sortManifests
  rw [foldl_insertManifest_mem]
  simp

/-- Length through the sorting fold. -/
theorem foldl_insertManifest_length (l : List Manifest) :
    ∀ acc : List Manifest,
      (l.foldl (fun a x => insertManifest x a) acc).length = l.length + acc.length := by
  induction l with
  | nil => intro acc; simp
  | cons x xs ih =>
    intro acc
    rw [List.foldl_cons, ih, insertManifest_length]
    simp only [List.length_cons]
    omega

/-- `sortManifests` preserves length. -/
theorem sortManifests_length (l : List Manifest) :
    (sortManifests l).length = l.length := by
  unfold sortManifests
  rw [foldl_insertManifest_length]
  simp

/-- On two manifests with truthy timestamps the comparator is the timestamp
difference `b - a`. -/
theorem cmpManifest_truthy (a b : Manifest)
    (ha : jsTruthyInt a.timeupdated = true) (hb : jsTruthyInt b.timeupdated = true) :
    cmpManifest a b = b.timeupdated.getD 0 - a.timeupdated.getD 0 := by
  unfold cmpManifest
  rw [ha, hb]
  simp

/-- Inserting a truthy-timestamped manifest into a descending-sorted list of
truthy-timestamped manifests keeps it descending-sorted. -/
theorem insertManifest_pairwise (x : Manifest) (l : List Manifest)
    (hx : jsTruthyInt x.timeupdated = true)
    (hl : ∀ y ∈ l, jsTruthyInt y.timeupdated = true)
    (hp : List.Pairwise manByTimeDesc l) :
    List.Pairwise manByTimeDesc (insertManifest x l) := by
  induction l with
  | nil => simp [insertManifest]
  | cons y ys ih =>
    have hy : jsTruthyInt y.timeupdated = true := hl y (List.mem_cons_self y ys)
    have hys : ∀ z ∈ ys, jsTruthyInt z.timeupdated = true :=
      fun z hz => hl z (List.mem_cons_of_mem y hz)
    rw [List.pairwise_cons] at hp
    obtain ⟨hyall, hpys⟩ := hp
    by_cases h : cmpManifest x y < 0
    · have hxy : manByTimeDesc x y := by
        rw [cmpManifest_truthy x y hx hy] at h
        unfold manByTimeDesc
        omega
      rw [show insertManifest x (y :: ys) = x :: y :: ys by simp [insertManifest, h]]
      refine List.pairwise_cons.mpr ⟨?_, List.pairwise_cons.mpr ⟨hyall, hpys⟩⟩
      intro z hz
      rcases List.mem_cons.mp hz with hzy | hz'
      · rw [hzy]; exact hxy
      · have h1 : manByTimeDesc y z := hyall z hz'
        unfold manByTimeDesc at h1 hxy ⊢
        omega
    · rw [show insertManifest x (y :: ys) = y :: insertManifest x ys by simp [insertManifest, h]]
      refine List.pairwise_cons.mpr ⟨?_, ih hys hpys⟩
      intro z hz
      rcases (insertManifest_mem x z ys).mp hz with hzx | hz'
      · rw [hzx]
        rw [cmpManifest_truthy x y hx hy] at h
        unfold manByTimeDesc
        omega
      · exact hyall z hz'

/-- Sorting a list of truthy-timestamped manifests yields a
descending-sorted list. -/
theorem sortManifests_pairwise (l : List Manifest)
    (hl : ∀ y ∈ l, jsTruthyInt y.timeupdated = true) :
    List.Pairwise manByTimeDesc (sortManifests l) := by
  unfold sortManifests
  have key : ∀ (ys acc : List Manifest),
      (∀ y ∈ ys, jsTruthyInt y.timeupdated = true) →
      (∀ y ∈ acc, jsTruthyInt y.timeupdated = true) →
      List.Pairwise manByTimeDesc acc →
      List.Pairwise manByTimeDesc (ys.foldl (fun a x => insertManifest x a) acc) := by
    intro ys
    induction ys with
    | nil => intro acc _ _ hp; simpa using hp
    | cons x xs ih =>
      intro acc hys hacc hp
      rw [List.foldl_cons]
      refine ih _ (fun y hy => hys y (List.mem_cons_of_mem x hy)) ?_ ?_
      · intro y hy
        rcases (insertManifest_mem x y acc).mp hy with hyx | hy'
        · rw [hyx]; exact hys x (List.mem_cons_self x xs)
        · exact hacc y hy'
      · exact insertManifest_pairwise x acc (hys x (List.mem_cons_self x xs)) hacc hp
  exact key l [] hl (by simp) (by simp)

/-- A decimal digit character is a digit in the library sense. -/
theorem mem_decDigits_isDigit (c : Char) (h : c ∈ decDigits) : c.isDigit = true := by
  simp only [decDigits, List.mem_cons, List.not_mem_nil, or_false] at h
  rcases h with rfl | rfl | rfl | rfl | rfl | rfl | rfl | rfl | rfl | rfl <;> decide

/-- A decimal digit character is not a newline. -/
theorem mem_decDigits_ne_newline (c : Char) (h : c ∈ decDigits) : c ≠ '\n' := by
  simp only [decDigits, List.mem_cons, List.not_mem_nil, or_false] at h
  rcases h with rfl | rfl | rfl | rfl | rfl | rfl | rfl | rfl | rfl | rfl <;> decide

/-- `parseInt` does not evaluate to `NaN` on a non-empty all-decimal-digit
string. -/
theorem jsParseIntNaN_of_digits (s : String) (c : Char) (rest : List Char)
    (hs : s.data = c :: rest) (hc : c ∈ decDigits)
    (hrest : ∀ d ∈ rest, d ∈ decDigits) :
    jsParseIntNaN s = false := by
  unfold jsParseIntNaN
  rw [hs]
  simp only [decDigits, List.mem_cons, List.not_mem_nil, or_false] at hc
  rcases hc with rfl | rfl | rfl | rfl | rfl | rfl | rfl | rfl | rfl | rfl <;>
    · simp only [List.dropWhile_cons]
      norm_num
      cases rest with
      | nil => rfl
      | cons c2 rest2 =>
        have hc2 : c2 ∈ decDigits := hrest c2 (List.mem_cons_self c2 rest2)
        simp only [decDigits, List.mem_cons, List.not_mem_nil, or_false] at hc2
        rcases hc2 with rfl | rfl | rfl | rfl | rfl | rfl | rfl | rfl | rfl | rfl <;> rfl

/-- The digits accumulator only ever emits decimal digit characters. -/
theorem natReprAux_digits (fuel : Nat) :
    ∀ (n : Nat) (acc : List Char), (∀ c ∈ acc, c ∈ decDigits) →
      ∀ c ∈ natReprAux fuel n acc, c ∈ decDigits := by
  induction fuel with
  | zero => intro n acc hacc c hc; exact hacc c hc
  | succ fuel ih =>
    intro n acc hacc c hc
    have hd : Char.ofNat (48 + n % 10) ∈ decDigits := by
      have h10 : n % 10 < 10 := Nat.mod_lt n (by norm_num)
      set r := n % 10 with hr
      interval_cases r <;> decide
    unfold natReprAux at hc
    by_cases hn : n < 10
    · rw [if_pos hn] at hc
      rcases List.mem_cons.mp hc with hcd | hc'
      · rw [hcd]; exact hd
      · exact hacc c hc'
    · rw [if_neg hn] at hc
      refine ih (n / 10) (Char.ofNat (48 + n % 10) :: acc) ?_ c hc
      intro c' hc'
      rcases List.mem_cons.mp hc' with hcd | hc''
      · rw [hcd]; exact hd
      · exact hacc c' hc''

/-- Every character of the decimal rendering of a natural number is a digit. -/
theorem natRepr_digits (n : Nat) : ∀ c ∈ (natRepr n).data, c ∈ decDigits := by
  intro c hc
  exact natReprAux_digits (n + 1) n [] (by simp) c hc

/-- Filtering with a predicate that fails on every element yields `[]`. -/
theorem filter_eq_nil_of_all_skip (l : List (String × DepotRaw))
    (hl : ∀ kv ∈ l, skipDepotKey kv.1 = true) :
    l.filter (fun kv => !skipDepotKey kv.1) = [] := by
  induction l with
  | nil => rfl
  | cons kv kvs ih =>
    rw [List.filter_cons]
    rw [hl kv (List.mem_cons_self kv kvs)]
    simp only [Bool.not_true, Bool.false_eq_true, if_false]
    exact ih (fun kv' h' => hl kv' (List.mem_cons_of_mem kv h'))

/-! ## Claim theorems -/

/-- C10: `getGameDepots` never propagates a product-info fetch error: for
every error raised by the underlying fetch it returns exactly one fallback
Depot with id the requested app id, name `App <appId>`, and OS type
`Unknown`. -/
theorem c10_fetch_error_fallback (appId : Nat) (err : String) :
    getGameDepots appId (Except.error err) =
      [syntheticDepot appId ("App " ++ natRepr appId)] ∧
    (syntheticDepot appId ("App " ++ natRepr appId)).id = natRepr appId ∧
    (syntheticDepot appId ("App " ++ natRepr appId)).name = "App " ++ natRepr appId ∧
    (syntheticDepot appId ("App " ++ natRepr appId)).osType = "Unknown" ∧
    (getGameDepots appId (Except.error err)).length = 1 :=
  ⟨rfl, rfl, rfl, rfl, rfl⟩

/-- C8: `generateSteamCommand` on appId 413150, depotId "413153", manifestId
"8881193748180768755" renders `download_depot 413150 413153
8881193748180768755`; in general every rendered command has the fixed form
`download_depot <appId> <depotId> <manifestId>`, the app id renders as
decimal digits, and the command is a single line whenever the depot and
manifest ids contain no newline. -/
theorem c8_command_format :
    generateSteamCommand (some 413150) (some "413153") (some "8881193748180768755") =
      some "download_depot 413150 413153 8881193748180768755" ∧
    (∀ (a : Nat) (d m : String),
      steamCommand a d m = "download_depot " ++ natRepr a ++ " " ++ d ++ " " ++ m) ∧
    (∀ a : Nat, ∀ c ∈ (natRepr a).data, c.isDigit = true) ∧
    (∀ (a : Nat) (d m : String), '\n' ∉ d.data → '\n' ∉ m.data →
      '\n' ∉ (steamCommand a d m).data) := by
  refine ⟨by decide, fun a d m => rfl, ?_, ?_⟩
  · intro a c hc
    exact mem_decDigits_isDigit c (natRepr_digits a c hc)
  · intro a d m hd hm hmem
    unfold steamCommand at hmem
    simp [String.data_append] at hmem
    rcases hmem with h | h | h
    · exact mem_decDigits_ne_newline '\n' (natRepr_digits a '\n' h) rfl
    · exact hd h
    · exact hm h

/-- Witness for C8 at the concrete triple from the claim. -/
theorem c8_command_format_witness :
    '\n' ∉ (steamCommand 413150 "413153" "8881193748180768755").data :=
  c8_command_format.2.2.2 413150 "413153" "8881193748180768755" (by decide) (by decide)

/-- C4: a blank or whitespace-only search term is rejected by the prompt's
validation (with the inline validation message) before any network call: no
outbound query to the storefront search endpoint ever carries such a term. -/
theorem c4_blank_term_rejected (term : String) (hblank : jsTrim term = "") :
    searchTermValidate term = Except.error "Please enter a game name to search" ∧
    ∀ (inputs : List String) (req : SearchRequest),
      req ∈ appSearchCalls inputs → req.term ≠ term := by
  have hval : searchTermValidate term = Except.error "Please enter a game name to search" := by
    unfold searchTermValidate
    rw [if_pos hblank]
  refine ⟨hval, ?_⟩
  intro inputs req hreq hterm
  unfold appSearchCalls at hreq
  cases hfind : getSearchTerm inputs with
  | none => rw [hfind] at hreq; simp at hreq
  | some t =>
    rw [hfind] at hreq
    simp only [List.mem_singleton] at hreq
    unfold getSearchTerm at hfind
    have hacc : searchTermAccepted t = true := List.find?_some hfind
    have htt : t = term := by rw [hreq] at hterm; exact hterm
    rw [htt] at hacc
    unfold searchTermAccepted at hacc
    rw [hval] at hacc
    simp at hacc

/-- Witness for C4 at the whitespace-only term `"   "`. -/
theorem c4_blank_term_rejected_witness :
    jsTrim "   " = "" ∧
    searchTermValidate "   " = Except.error "Please enter a game name to search" ∧
    searchGamesRequest "   " ∉ appSearchCalls ["   ", "Stardew Valley"] :=
  ⟨by decide, (c4_blank_term_rejected "   " (by decide)).1,
   fun h =>
     (c4_blank_term_rejected "   " (by decide)).2 ["   ", "Stardew Valley"]
       (searchGamesRequest "   ") h rfl⟩

/-- C6: OS classification follows the priority policy of `getOsType`: a
truthy OS-list field containing "windows"/"macos"/"linux" maps to
Windows/Mac/Linux and an unrecognized value passes through raw; without an
OS-list the display name is inspected case-insensitively for
"windows"/"mac"/"osx"/"linux"; with neither signal the result is Unknown.
In particular OS-list "windows" gives Windows, name "Linux content" with no
OS-list gives Linux, and neither signal gives Unknown. -/
theorem c6_os_classification :
    getOsType { emptyDepotRaw with
      config := some { oslist := some "windows", language := none } } = "Windows" ∧
    getOsType { emptyDepotRaw with name := some "Linux content" } = "Linux" ∧
    getOsType emptyDepotRaw = "Unknown" ∧
    (∀ (d : DepotRaw) (cfg : DepotConfig) (os : String),
      d.config = some cfg → cfg.oslist = some os → os ≠ "" →
      (strContains os "windows" = true → getOsType d = "Windows") ∧
      (strContains os "windows" = false → strContains os "macos" = true →
        getOsType d = "Mac") ∧
      (strContains os "windows" = false → strContains os "macos" = false →
        strContains os "linux" = true → getOsType d = "Linux") ∧
      (strContains os "windows" = false → strContains os "macos" = false →
        strContains os "linux" = false → getOsType d = os)) ∧
    (∀ d : DepotRaw,
      d.config.bind DepotConfig.oslist = none ∨ d.config.bind DepotConfig.oslist = some "" →
      getOsType d = nameOsType d) ∧
    (∀ (d : DepotRaw) (n : String), d.name = some n → n ≠ "" →
      (strContains (jsToLower n) "windows" = true → nameOsType d = "Windows") ∧
      (strContains (jsToLower n) "windows" = false →
        (strContains (jsToLower n) "mac" || strContains (jsToLower n) "osx") = true →
        nameOsType d = "Mac") ∧
      (strContains (jsToLower n) "windows" = false →
        (strContains (jsToLower n) "mac" || strContains (jsToLower n) "osx") = false →
        strContains (jsToLower n) "linux" = true → nameOsType d = "Linux") ∧
      (strContains (jsToLower n) "windows" = false →
        (strContains (jsToLower n) "mac" || strContains (jsToLower n) "osx") = false →
        strContains (jsToLower n) "linux" = false → nameOsType d = "Unknown")) ∧
    (∀ d : DepotRaw, d.config = none → d.name = none → getOsType d = "Unknown") := by
  refine ⟨by decide, by decide, by decide, ?_, ?_, ?_, ?_⟩
  · intro d cfg os h1 h2 hne
    refine ⟨?_, ?_, ?_, ?_⟩
    · intro hw
      simp [getOsType, h1, h2, hne, hw]
    · intro hw hm
      simp [getOsType, h1, h2, hne, hw, hm]
    · intro hw hm hl
      simp [getOsType, h1, h2, hne, hw, hm, hl]
    · intro hw hm hl
      simp [getOsType, h1, h2, hne, hw, hm, hl]
  · intro d h
    unfold getOsType
    cases hcfg : d.config with
    | none => rfl
    | some cfg =>
      cases hos : cfg.oslist with
      | none => simp [hos]
      | some os =>
        have hos2 : os = "" := by
          rcases h with h | h
          · rw [hcfg] at h
            simp only [Option.some_bind] at h
            rw [hos] at h
            exact absurd h (by simp)
          · rw [hcfg] at h
            simp only [Option.some_bind] at h
            rw [hos] at h
            exact Option.some.inj h
        simp [hos, hos2]
  · intro d n hn hne
    refine ⟨?_, ?_, ?_, ?_⟩
    · intro hw
      simp [nameOsType, hn, hne, hw]
    · intro hw hm
      simp [nameOsType, hn, hne, hw, hm]
    · intro hw hm hl
      simp [nameOsType, hn, hne, hw, hm, hl]
    · intro hw hm hl
      simp [nameOsType, hn, hne, hw, hm, hl]
  · intro d h1 h2
    simp [getOsType, nameOsType, h1, h2]

/-- Witness for C6: a raw pass-through OS-list value and a name-based Mac
classification. -/
theorem c6_os_classification_witness :
    getOsType { emptyDepotRaw with
      config := some { oslist := some "solaris", language := none } } = "solaris" ∧
    nameOsType { emptyDepotRaw with name := some "Mac OSX data" } = "Mac" :=
  ⟨(c6_os_classification.2.2.2.1
      { emptyDepotRaw with config := some { oslist := some "solaris", language := none } }
      { oslist := some "solaris", language := none } "solaris" rfl rfl (by decide)).2.2.2
      (by decide) (by decide) (by decide),
   (c6_os_classification.2.2.2.2.2.1
      { emptyDepotRaw with name := some "Mac OSX data" } "Mac OSX data" rfl (by decide)).2.1
      (by decide) (by decide)⟩

/-- C1 counterexample: for a product-info input that is present but has no
`appinfo` (so its depot table yields zero qualifying depot entries),
`getGameDepots` returns the empty sequence rather than one synthetic
Depot — the claim's "never returns an empty sequence" fails. -/
theorem c1_counterexample :
    getGameDepots 400 (Except.ok (some { appinfo := none })) = [] ∧
    (getGameDepots 400 (Except.ok (some { appinfo := none }))).length ≠ 1 := by
  constructor
  · rfl
  · decide

/-- C1 (amended): when the fetched product info and its `appinfo` are
present and every depot-table key is skipped (so zero depot entries
qualify), `getGameDepots` returns exactly one synthetic Depot whose id is
the app id, whose name falls back to the app's display name (or
`App <appId>`), and whose OS classification is Unknown; but when the
product info or its `appinfo` is absent the result is empty. -/
theorem c1_synthetic_fallback (appId : Nat) (p : ProductInfo) (ai : AppInfo)
    (hai : p.appinfo = some ai)
    (hskip : ∀ kv ∈ (match ai.depots with
        | none => ([] : List (String × DepotRaw))
        | some dt => dt.entries), skipDepotKey kv.1 = true) :
    getGameDepots appId (Except.ok (some p)) =
      [syntheticDepot appId (fallbackDepotName appId ai)] ∧
    (syntheticDepot appId (fallbackDepotName appId ai)).id = natRepr appId ∧
    (syntheticDepot appId (fallbackDepotName appId ai)).osType = "Unknown" ∧
    fallbackDepotName appId ai =
      jsOrDefaultStr (ai.common.bind CommonInfo.name) ("App " ++ natRepr appId) := by
  have hext : extractDepots ai = [] := by
    unfold extractDepots
    cases hdt : ai.depots with
    | none => rfl
    | some dt =>
      rw [hdt] at hskip
      show (dt.entries.filter (fun kv => !skipDepotKey kv.1)).map
        (fun kv => depotOfEntry kv.1 kv.2) = []
      rw [filter_eq_nil_of_all_skip dt.entries hskip]
      rfl
  exact ⟨by simp [getGameDepots, hai, hext], rfl, rfl, rfl⟩

/-- Witness for C1 at a concrete product whose depot table holds only the
reserved `"branches"` key and a non-numeric key. -/
theorem c1_synthetic_fallback_witness :
    getGameDepots 413150 (Except.ok (some { appinfo := some c1App })) =
      [syntheticDepot 413150 (fallbackDepotName 413150 c1App)] ∧
    fallbackDepotName 413150 c1App = "Stardew Valley" :=
  ⟨(c1_synthetic_fallback 413150 { appinfo := some c1App } c1App rfl (by decide)).1,
   by decide⟩

/-- C7 counterexample: the depot-table key `"0"` is not a valid positive
integer id, yet the extraction produces a Depot record for it — the
claimed "if and only if" fails. -/
theorem c7_counterexample :
    (extractDepots c7App).map Depot.id = ["0"] ∧
    specValidPositiveIntId "0" = false := by
  constructor
  · rfl
  · decide

/-- C7 (amended): a Depot record is produced exactly for the depot-table
keys that are not `"branches"` and that JavaScript `parseInt` does not map
to `NaN`; every valid positive integer id qualifies, but so do keys that
are not valid positive integer ids, such as `"0"`, `"-5"` and `"12abc"`. -/
theorem c7_key_filter :
    (∀ (ai : AppInfo) (dt : DepotsTable), ai.depots = some dt →
      (extractDepots ai).map Depot.id =
        (dt.entries.filter (fun kv => !skipDepotKey kv.1)).map Prod.fst) ∧
    (∀ k : String, specValidPositiveIntId k = true → skipDepotKey k = false) ∧
    skipDepotKey "branches" = true ∧ skipDepotKey "abc" = true ∧
    skipDepotKey "0" = false ∧ skipDepotKey "-5" = false ∧
    skipDepotKey "12abc" = false := by
  refine ⟨?_, ?_, by decide, by decide, by decide, by decide, by decide⟩
  · intro ai dt hdt
    unfold extractDepots
    rw [hdt, List.map_map]
    rfl
  · intro k hk
    unfold specValidPositiveIntId at hk
    simp only [Bool.and_eq_true, List.all_eq_true, decide_eq_true_eq,
      Bool.not_eq_true'] at hk
    obtain ⟨⟨hne, hall⟩, _⟩ := hk
    have hnil : k.data ≠ [] := by
      intro h
      rw [h] at hne
      simp at hne
    obtain ⟨c, rest, hs⟩ := List.exists_cons_of_ne_nil hnil
    have hnan : jsParseIntNaN k = false :=
      jsParseIntNaN_of_digits k c rest hs
        (hall c (hs ▸ List.mem_cons_self c rest))
        (fun e he => hall e (hs ▸ List.mem_cons_of_mem c he))
    have hbr : k ≠ "branches" := by
      intro hbr
      rw [hbr] at hall
      exact absurd (hall 'b' (by decide)) (by decide)
    unfold skipDepotKey
    rw [hnan, decide_eq_false hbr]
    rfl

/-- Witness for C7 at the concrete key `"413151"`. -/
theorem c7_key_filter_witness :
    (extractDepots { common := none, depots := some { entries := [("413151", emptyDepotRaw)], branches := none } }).map Depot.id = ["413151"] ∧
    skipDepotKey "413151" = false := by
  constructor
  · rw [c7_key_filter.1 _ { entries := [("413151", emptyDepotRaw)], branches := none } rfl]
    decide
  · exact c7_key_filter.2.1 "413151" (by decide)

/-- C3 counterexample: for a product whose depot table is present but whose
named depot exposes no manifest map and which declares no branch data,
`getDepotManifests` returns the five hard-coded sample historical
manifests, not an empty sequence. -/
theorem c3_counterexample :
    depotManifestList c3Table "1001" = [] ∧
    branchManifestList c3Table "1001" = [] ∧
    (getDepotManifests (Except.ok (some c3Product)) "1001" 2000000).length = 5 := by
  refine ⟨rfl, rfl, by decide⟩

/-- C3 (amended): `getDepotManifests` never raises (it is a total function
of its inputs); it returns an empty sequence exactly on the fetch-error
path and when the product info, its `appinfo`, or its depot table is
absent; when the depot table is present but the named depot exposes no
manifest map and no branch yields a manifest, the result is the five
sample historical manifests (sorted), not an empty sequence. -/
theorem c3_empty_and_samples :
    (∀ (e depotId : String) (now : Int),
      getDepotManifests (Except.error e) depotId now = []) ∧
    (∀ (depotId : String) (now : Int),
      getDepotManifests (Except.ok none) depotId now = []) ∧
    (∀ (p : ProductInfo) (depotId : String) (now : Int), p.appinfo = none →
      getDepotManifests (Except.ok (some p)) depotId now = []) ∧
    (∀ (p : ProductInfo) (ai : AppInfo) (depotId : String) (now : Int),
      p.appinfo = some ai → ai.depots = none →
      getDepotManifests (Except.ok (some p)) depotId now = []) ∧
    (∀ (p : ProductInfo) (ai : AppInfo) (dt : DepotsTable) (depotId : String) (now : Int),
      p.appinfo = some ai → ai.depots = some dt →
      depotManifestList dt depotId = [] → branchManifestList dt depotId = [] →
      getDepotManifests (Except.ok (some p)) depotId now =
        sortManifests (sampleManifests now) ∧
      (getDepotManifests (Except.ok (some p)) depotId now).length = 5) := by
  refine ⟨fun e d n => rfl, fun d n => rfl, ?_, ?_, ?_⟩
  · intro p d n h
    simp [getDepotManifests, h]
  · intro p ai d n hai hdt
    simp [getDepotManifests, hai, hdt]
  · intro p ai dt d n hai hdt hdm hbm
    have hres : getDepotManifests (Except.ok (some p)) d n =
        sortManifests (mergeManifests dt d n) := by
      simp [getDepotManifests, hai, hdt]
    have hmerge : mergeManifests dt d n = sampleManifests n := by
      unfold mergeManifests
      rw [hdm, hbm]
      simp
    constructor
    · rw [hres, hmerge]
    · rw [hres, sortManifests_length, hmerge]
      simp [sampleManifests]

/-- Witness for C3 at the concrete product `c3Product`. -/
theorem c3_empty_and_samples_witness :
    getDepotManifests (Except.ok (some c3Product)) "1001" 5000000 =
      sortManifests (sampleManifests 5000000) ∧
    (getDepotManifests (Except.ok (some c3Product)) "1001" 5000000).length = 5 :=
  c3_empty_and_samples.2.2.2.2 c3Product { common := none, depots := some c3Table }
    c3Table "1001" 5000000 rfl rfl (by decide) (by decide)

/-- C2 counterexample: in the list produced by `getDepotManifests` for
`c2Product`, the untimestamped (non-historical) branch manifest is ordered
first, before all five timestamped historical manifests — so a pair where
exactly one side carries a timestamp is ordered with the untimestamped one
first, contradicting the claim. -/
theorem c2_counterexample :
    ((getDepotManifests (Except.ok (some c2Product)) "1001" 10000000).head?.map
      (fun m => jsTruthyInt m.timeupdated)) = some false ∧
    ((getDepotManifests (Except.ok (some c2Product)) "1001" 10000000).tail.all
      (fun m => jsTruthyInt m.timeupdated)) = true ∧
    (getDepotManifests (Except.ok (some c2Product)) "1001" 10000000).length = 6 := by
  refine ⟨by decide, by decide, by decide⟩

/-- C2 (amended): for a pair of manifests where exactly one carries a
truthy `timeupdated` timestamp, the comparator ignores the timestamp
entirely: the non-historical manifest is ordered before the historical one,
and two manifests with equal historical flags keep their input order — the
timestamped one is not, in general, ordered first. -/
theorem c2_mixed_timestamp_order (a b : Manifest)
    (ha : jsTruthyInt a.timeupdated = true) (hb : jsTruthyInt b.timeupdated = false) :
    (cmpManifest a b =
      (if a.isHistorical && !b.isHistorical then 1
       else if !a.isHistorical && b.isHistorical then -1 else 0)) ∧
    (a.isHistorical = true → b.isHistorical = false →
      sortManifests [a, b] = [b, a] ∧ sortManifests [b, a] = [b, a]) ∧
    (a.isHistorical = b.isHistorical →
      sortManifests [a, b] = [a, b] ∧ sortManifests [b, a] = [b, a]) ∧
    (a.isHistorical = false → b.isHistorical = true →
      sortManifests [a, b] = [a, b] ∧ sortManifests [b, a] = [a, b]) := by
  have hab : cmpManifest a b =
      (if a.isHistorical && !b.isHistorical then 1
       else if !a.isHistorical && b.isHistorical then -1 else 0) := by
    unfold cmpManifest
    rw [ha, hb]
    simp
  have hba : cmpManifest b a =
      (if b.isHistorical && !a.isHistorical then 1
       else if !b.isHistorical && a.isHistorical then -1 else 0) := by
    unfold cmpManifest
    rw [ha, hb]
    simp
  refine ⟨hab, ?_, ?_, ?_⟩
  · intro h1 h2
    constructor
    · simp [sortManifests, insertManifest, hba, h1, h2]
    · simp [sortManifests, insertManifest, hab, h1, h2]
  · intro h
    cases hB : b.isHistorical <;> rw [hB] at h
    · constructor
      · simp [sortManifests, insertManifest, hba, h, hB]
      · simp [sortManifests, insertManifest, hab, h, hB]
    · constructor
      · simp [sortManifests, insertManifest, hba, h, hB]
      · simp [sortManifests, insertManifest, hab, h, hB]
  · intro h1 h2
    constructor
    · simp [sortManifests, insertManifest, hba, h1, h2]
    · simp [sortManifests, insertManifest, hab, h1, h2]

/-- Witness for C2 on concrete manifests (timestamped historical vs
untimestamped non-historical). -/
theorem c2_mixed_timestamp_order_witness :
    sortManifests [testManifest "h" (some 100) true, testManifest "c" none false] =
      [testManifest "c" none false, testManifest "h" (some 100) true] :=
  ((c2_mixed_timestamp_order (testManifest "h" (some 100) true)
      (testManifest "c" none false) (by decide) (by decide)).2.1 rfl rfl).1

/-- C5: whenever every manifest in the produced list carries a truthy
`timeupdated` timestamp, `getDepotManifests` orders the list descending by
that timestamp; in particular the sort sends timestamps `[100, 300, 200]`
(a historical/current mix) to `[300, 200, 100]`. -/
theorem c5_sorted_descending :
    (∀ (fetch : FetchResult) (depotId : String) (now : Int),
      ((getDepotManifests fetch depotId now).all
        (fun m => jsTruthyInt m.timeupdated)) = true →
      List.Pairwise manByTimeDesc (getDepotManifests fetch depotId now)) ∧
    sortManifests
      [testManifest "a" (some 100) false, testManifest "b" (some 300) true,
       testManifest "c" (some 200) false] =
      [testManifest "b" (some 300) true, testManifest "c" (some 200) false,
       testManifest "a" (some 100) false] := by
  constructor
  · intro fetch depotId now hall
    rcases fetch with e | op
    · simp [getDepotManifests]
    · rcases op with _ | p
      · simp [getDepotManifests]
      · rcases hai : p.appinfo with _ | ai
        · simp [getDepotManifests, hai]
        · rcases hdt : ai.depots with _ | dt
          · simp [getDepotManifests, hai, hdt]
          · have hres : getDepotManifests (Except.ok (some p)) depotId now =
                sortManifests (mergeManifests dt depotId now) := by
              simp [getDepotManifests, hai, hdt]
            rw [hres] at hall ⊢
            refine sortManifests_pairwise _ ?_
            intro m hm
            exact List.all_eq_true.mp hall m ((sortManifests_mem _ m).mpr hm)
  · decide

/-- Witness for C5 at the concrete product `c3Product`, whose output is the
five sample manifests, all carrying timestamps. -/
theorem c5_sorted_descending_witness :
    ((getDepotManifests (Except.ok (some c3Product)) "1001" 2000000).all
      (fun m => jsTruthyInt m.timeupdated)) = true ∧
    List.Pairwise manByTimeDesc
      (getDepotManifests (Except.ok (some c3Product)) "1001" 2000000) :=
  ⟨by decide,
   c5_sorted_descending.1 (Except.ok (some c3Product)) "1001" 2000000 (by decide)⟩

/-- C9: for every product-info input that contains a depots table,
`getDepotManifests` appends the five fixed sample historical manifests
(with the five listed manifest ids, each historical, public, and on branch
"historical"), so the returned list always has at least five elements. -/
theorem c9_sample_manifests (p : ProductInfo) (ai : AppInfo) (dt : DepotsTable)
    (depotId : String) (now : Int)
    (hai : p.appinfo = some ai) (hdt : ai.depots = some dt) :
    5 ≤ (getDepotManifests (Except.ok (some p)) depotId now).length ∧
    (∀ s ∈ sampleManifests now,
      s ∈ getDepotManifests (Except.ok (some p)) depotId now) ∧
    (sampleManifests now).map Manifest.manifestId =
      ["2946550127499212992", "4931450830400310210", "9512939615798864588",
       "2488226670458163874", "8387145243060614243"] ∧
    (∀ s ∈ sampleManifests now,
      s.isHistorical = true ∧ s.isPublic = true ∧ s.branch = "historical") ∧
    mergeManifests dt depotId now =
      depotManifestList dt depotId ++ branchManifestList dt depotId ++
        sampleManifests now := by
  have hres : getDepotManifests (Except.ok (some p)) depotId now =
      sortManifests (mergeManifests dt depotId now) := by
    simp [getDepotManifests, hai, hdt]
  refine ⟨?_, ?_, rfl, ?_, rfl⟩
  · rw [hres, sortManifests_length]
    unfold mergeManifests
    simp [sampleManifests]
    omega
  · intro s hs
    rw [hres, sortManifests_mem]
    unfold mergeManifests
    simp only [List.mem_append]
    exact Or.inr hs
  · intro s hs
    simp only [sampleManifests, List.mem_cons, List.not_mem_nil, or_false] at hs
    rcases hs with rfl | rfl | rfl | rfl | rfl <;> exact ⟨rfl, rfl, rfl⟩

/-- Witness for C9 at the concrete product `c2Product`. -/
theorem c9_sample_manifests_witness :
    5 ≤ (getDepotManifests (Except.ok (some c2Product)) "1001" 10000000).length :=
  (c9_sample_manifests c2Product { common := none, depots := some c2Table }
    c2Table "1001" 10000000 rfl rfl).1
